import Mathlib

/-!
Shallow embedding of the embedded-plots rendering core (src/curve.rs,
src/axis.rs, src/single_plot.rs) and verification of its specification.

Conventions of the embedding:
* Rust `i32` values are modelled as `Int`; Rust `i32` division truncates
  toward zero, which is `Int.tdiv`.
* `core::ops::Range<i32>` is modelled by `IntRange`; the Rust field `end`
  is a Lean keyword and is named `stop` here.
* The pixel colors (`C : PixelColor`) never influence the geometry of any
  drawing call; they are modelled abstractly as `Nat`.
* A render call is modelled as the list of primitive calls it issues to
  the external drawing target (`Call.line` / `Call.text`).  The external
  target may fail, in which case the Rust code stops and propagates the
  target error; that external failure channel is out of scope here, so a
  render is the full list of calls it would issue against a non-failing
  target.
* A Rust panic (index out of bounds, integer division by zero) is
  modelled as `Option.none` on the operation that can panic.
-/

/-- Pixel- or data-space point, `embedded_graphics::geometry::Point` /
`PlotPoint` both being integer pairs. -/
structure Point where
  x : Int
  y : Int
deriving DecidableEq, Repr

/-- Model of `core::ops::Range<i32>`; `stop` is the Rust field `end`. -/
structure IntRange where
  start : Int
  stop : Int
deriving DecidableEq, Repr

/-- Rust `Range::is_empty`: `!(start < end)`. -/
def IntRange.is_empty (r : IntRange) : Bool :=
  !(decide (r.start < r.stop))

/-- Rust `ExactSizeIterator::len` for `Range<i32>`: the number of values
iterated, `end - start` clamped at zero. -/
def IntRange.len (r : IntRange) : Nat :=
  (r.stop - r.start).toNat

/-- Modelled from the spec: the Scale Mapper, `Scalable::scale_between_ranges`
of the range_conv module of the repository, is not among the provided source
files (only its callers in `curve.rs` and `axis.rs` are).  Spec section 4.1
gives its contract: the result is
`dest.start + (value - src.start) * (dest.end - dest.start) / (src.end - src.start)`
with truncating (toward-zero) integer division, which for `Int` is
`Int.tdiv`. -/
def scale_between_ranges (value : Int) (source_range destination_range : IntRange) : Int :=
  destination_range.start +
    Int.tdiv
      ((value - source_range.start) * (destination_range.stop - destination_range.start))
      (source_range.stop - source_range.start)

/-- Model of `PlotPoint` from curve.rs. -/
structure PlotPoint where
  x : Int
  y : Int
deriving DecidableEq, Repr

/-- Model of `Curve` from curve.rs: a sequence of points plus the two
extent ranges. -/
structure Curve where
  points : List PlotPoint
  x_range : IntRange
  y_range : IntRange
deriving DecidableEq, Repr

/-- `Curve::new`: curve with manually supplied ranges. -/
def Curve.new (points : List PlotPoint) (x_range y_range : IntRange) : Curve :=
  { points := points, x_range := x_range, y_range := y_range }

/-- `Curve::from_data`: ranges deduced with itertools `minmax`
(`NoElements => 0..0`, `OneElement(v) => v..v`, `MinMax(min, max) => min..max`;
for a nonempty list the fold below computes exactly that). -/
def Curve.from_data (points : List PlotPoint) : Curve :=
  let x_range : IntRange :=
    match points.map (fun p => p.x) with
    | [] => ⟨0, 0⟩
    | v :: vs => ⟨vs.foldl min v, vs.foldl max v⟩
  let y_range : IntRange :=
    match points.map (fun p => p.y) with
    | [] => ⟨0, 0⟩
    | v :: vs => ⟨vs.foldl min v, vs.foldl max v⟩
  { points := points, x_range := x_range, y_range := y_range }

/-- `Curve::into_drawable_curve`: validity check, then the lazily mapped
point sequence (modelled as the fully materialised list the iterator
yields). -/
def Curve.into_drawable_curve (c : Curve) (top_left bottom_right : Point) :
    Except String (List Point) :=
  if top_left.x > bottom_right.x ∨ top_left.y > bottom_right.y ∨
      c.x_range.is_empty ∨ c.y_range.is_empty then
    .error "Invalid range"
  else
    .ok (c.points.map (fun p =>
      { x := scale_between_ranges p.x c.x_range ⟨top_left.x, bottom_right.x⟩
        y := scale_between_ranges p.y c.y_range ⟨bottom_right.y, top_left.y⟩ }))

/-- Primitive call issued to the external drawing target.  Colors, text
content and text alignment do not affect any verified property and are
omitted; the geometry (positions, stroke thickness) is kept. -/
inductive Call where
  | line (start stop : Point) (thickness : Nat)
  | text (position : Point)
deriving DecidableEq, Repr

/-- Model of `DrawableCurve` from curve.rs. -/
structure DrawableCurve where
  scaled_data : List Point
  color : Option Nat
  thickness : Option Nat
deriving DecidableEq, Repr

/-- `DrawableCurve::set_color`. -/
def DrawableCurve.set_color (d : DrawableCurve) (color : Nat) : DrawableCurve :=
  { d with color := some color }

/-- `DrawableCurve::set_thickness`. -/
def DrawableCurve.set_thickness (d : DrawableCurve) (thickness : Nat) : DrawableCurve :=
  { d with thickness := some thickness }

/-- Itertools `tuple_windows` specialised to pairs: all consecutive pairs. -/
def tuple_windows {α : Type} (l : List α) : List (α × α) :=
  l.zip l.tail

/-- `DrawableCurve::draw`: one line per consecutive pair of scaled points,
stroke thickness defaulting to 2. -/
def DrawableCurve.draw (d : DrawableCurve) : List Call :=
  (tuple_windows d.scaled_data).map (fun pq => Call.line pq.1 pq.2 (d.thickness.getD 2))

/-- Model of `Scale` from axis.rs. -/
inductive Scale where
  | Fixed (interval : Nat)
  | RangeFraction (fraction : Nat)
deriving DecidableEq, Repr

/-- `Default for Scale`. -/
def Scale.default : Scale := Scale.RangeFraction 5

/-- Model of `Placement` from axis.rs. -/
inductive Placement where
  | X (x1 x2 y : Int)
  | Y (y1 y2 x : Int)
deriving DecidableEq, Repr

/-- Model of `Axis` from axis.rs. -/
structure Axis where
  range : IntRange
  title : Option String
  scale : Option Scale
deriving DecidableEq, Repr

/-- `Axis::new`. -/
def Axis.new (range : IntRange) : Axis :=
  { range := range, title := none, scale := none }

/-- `Axis::set_scale`. -/
def Axis.set_scale (a : Axis) (scale : Scale) : Axis :=
  { a with scale := some scale }

/-- `Axis::set_title`. -/
def Axis.set_title (a : Axis) (title : String) : Axis :=
  { a with title := some title }

/-- Model of `DrawableAxis` from axis.rs; the text style carries no
geometric information and is modelled as an abstract `Option Nat`. -/
structure DrawableAxis where
  axis : Axis
  placement : Placement
  color : Option Nat
  text_style : Option Nat
  tick_size : Option Nat
  thickness : Option Nat
deriving DecidableEq, Repr

/-- `Axis::into_drawable_axis`. -/
def Axis.into_drawable_axis (a : Axis) (placement : Placement) : DrawableAxis :=
  { axis := a, placement := placement, color := none, text_style := none,
    tick_size := none, thickness := none }

/-- `DrawableAxis::set_color`. -/
def DrawableAxis.set_color (d : DrawableAxis) (val : Nat) : DrawableAxis :=
  { d with color := some val }

/-- `DrawableAxis::set_text_style`. -/
def DrawableAxis.set_text_style (d : DrawableAxis) (val : Nat) : DrawableAxis :=
  { d with text_style := some val }

/-- `DrawableAxis::set_tick_size`. -/
def DrawableAxis.set_tick_size (d : DrawableAxis) (val : Nat) : DrawableAxis :=
  { d with tick_size := some val }

/-- `DrawableAxis::set_thickness`. -/
def DrawableAxis.set_thickness (d : DrawableAxis) (val : Nat) : DrawableAxis :=
  { d with thickness := some val }

/-- Rust `range.into_iter().step_by(step)` for a `Range<i32>` and `step ≥ 1`:
the values `start, start + step, start + 2*step, …` below `stop`; there are
`⌈len / step⌉` of them. -/
def step_by (r : IntRange) (step : Nat) : List Int :=
  (List.range ((r.len + step - 1) / step)).map (fun i => r.start + (step * i : Nat))

/-- Tick-mark generation of `DrawableAxis::draw` (axis.rs lines 146-152).
`Fixed(interval)` steps by `interval.max(1)`.  `RangeFraction(fraction)`
computes `len / fraction` BEFORE the `.max(1)` guard; `fraction = 0` is a
`usize` division by zero, which panics in Rust and is modelled as `none`. -/
def scale_marks (s : Scale) (range : IntRange) : Option (List Int) :=
  match s with
  | .Fixed interval => some (step_by range (max interval 1))
  | .RangeFraction fraction =>
    if fraction = 0 then none
    else some (step_by range (max (range.len / fraction) 1))

/-- Is the scale one whose tick generation panics (`RangeFraction(0)`)? -/
def Scale.panics : Scale → Bool
  | .RangeFraction 0 => true
  | _ => false

/-- `DrawableAxis::draw`, as the list of drawing-target calls it issues.
`bbox_left` abstracts the external embedded-graphics text bounding box: it
returns the left edge of a tick label drawn at a given position for a given
mark; the Y branch tracks the running minimum of those edges
(`tick_text_left_pos_bound`, initially `i32::MAX`) to place the title. -/
def DrawableAxis.draw (d : DrawableAxis) (bbox_left : Point → Int → Int) :
    Option (List Call) :=
  match scale_marks (d.axis.scale.getD Scale.default) d.axis.range with
  | none => none
  | some marks =>
    let thickness := d.thickness.getD 1
    let tick_size : Int := (d.tick_size.getD 2 : Nat)
    match d.placement with
    | .X x1 x2 y =>
      some ([Call.line ⟨x1, y⟩ ⟨x2, y⟩ thickness]
        ++ (match d.axis.title with
            | some _ => [Call.text ⟨x1 + Int.tdiv (x2 - x1) 2, y + 10⟩]
            | none => [])
        ++ marks.flatMap (fun mark =>
            let x := scale_between_ranges mark d.axis.range ⟨x1, x2⟩
            [Call.line ⟨x, y - tick_size⟩ ⟨x, y + tick_size⟩ thickness,
             Call.text ⟨x + 2, y + 2⟩]))
    | .Y y1 y2 x =>
      let tickCalls := marks.flatMap (fun mark =>
          let yy := scale_between_ranges mark d.axis.range ⟨y2, y1⟩
          [Call.line ⟨x - tick_size, yy⟩ ⟨x + tick_size, yy⟩ thickness,
           Call.text ⟨x, yy⟩])
      let bound := marks.foldl (fun acc mark =>
          let yy := scale_between_ranges mark d.axis.range ⟨y2, y1⟩
          min acc (bbox_left ⟨x, yy⟩ mark)) 2147483647
      some ([Call.line ⟨x, y1⟩ ⟨x, y2⟩ thickness]
        ++ tickCalls
        ++ (match d.axis.title with
            | some _ => [Call.text ⟨bound - 1, y1 + Int.tdiv (y2 - y1) 2⟩]
            | none => []))

/-- Model of `SinglePlot` from single_plot.rs: (curve, color) pairs plus
the two scale policies. -/
structure SinglePlot where
  curves : List (Curve × Nat)
  x_scale : Scale
  y_scale : Scale
deriving DecidableEq, Repr

/-- `SinglePlot::new`: rejects an empty curve collection. -/
def SinglePlot.new (curves : List (Curve × Nat)) (x_scale y_scale : Scale) :
    Except String SinglePlot :=
  if curves.length < 1 then .error "No curves provided"
  else .ok { curves := curves, x_scale := x_scale, y_scale := y_scale }

/-- Model of `DrawableSinglePlot` from single_plot.rs. -/
structure DrawableSinglePlot where
  plot : SinglePlot
  color : Option Nat
  text_color : Option Nat
  axis_color : Option Nat
  thickness : Option Nat
  axis_thickness : Option Nat
  top_left : Point
  bottom_right : Point
deriving DecidableEq, Repr

/-- `SinglePlot::into_drawable`. -/
def SinglePlot.into_drawable (p : SinglePlot) (top_left bottom_right : Point) :
    DrawableSinglePlot :=
  { plot := p, color := none, text_color := none, axis_color := none,
    thickness := none, axis_thickness := none,
    top_left := top_left, bottom_right := bottom_right }

/-- `DrawableSinglePlot::set_color`. -/
def DrawableSinglePlot.set_color (d : DrawableSinglePlot) (color : Nat) : DrawableSinglePlot :=
  { d with color := some color }

/-- `DrawableSinglePlot::set_text_color`. -/
def DrawableSinglePlot.set_text_color (d : DrawableSinglePlot) (color : Nat) : DrawableSinglePlot :=
  { d with text_color := some color }

/-- `DrawableSinglePlot::set_axis_color`. -/
def DrawableSinglePlot.set_axis_color (d : DrawableSinglePlot) (color : Nat) : DrawableSinglePlot :=
  { d with axis_color := some color }

/-- `DrawableSinglePlot::set_thickness`. -/
def DrawableSinglePlot.set_thickness (d : DrawableSinglePlot) (thickness : Nat) : DrawableSinglePlot :=
  { d with thickness := some thickness }

/-- `DrawableSinglePlot::set_axis_thickness`. -/
def DrawableSinglePlot.set_axis_thickness (d : DrawableSinglePlot) (thickness : Nat) : DrawableSinglePlot :=
  { d with axis_thickness := some thickness }

/-- The curve section of `DrawableSinglePlot::draw` (single_plot.rs lines
149-160): each curve is converted with `into_drawable_curve`; on success it
is styled and drawn, on failure it is skipped (`if let Ok(c) = …`). -/
def plot_curve_calls (curves : List (Curve × Nat)) (top_left bottom_right : Point)
    (thickness : Nat) : List Call :=
  curves.flatMap (fun cv =>
    match cv.1.into_drawable_curve top_left bottom_right with
    | .ok pts =>
      (((DrawableCurve.mk pts none none).set_color cv.2).set_thickness thickness).draw
    | .error _ => [])

/-- `DrawableSinglePlot::draw`: resolves styling, reads the extents of
`curves[0]` (the indexing panics on an empty collection, modelled as
`none`), draws the X axis, then the Y axis, then the curve section. -/
def DrawableSinglePlot.draw (d : DrawableSinglePlot) (bbox_left : Point → Int → Int) :
    Option (List Call) :=
  let color := d.color.getD 0
  let text_color := d.text_color.getD color
  let axis_color := d.axis_color.getD color
  let thickness := d.thickness.getD 2
  let axis_thickness := d.axis_thickness.getD thickness
  match d.plot.curves.head? with
  | none => none
  | some c0 =>
    let x_axis :=
      (((((Axis.new c0.1.x_range).set_title "X").set_scale d.plot.x_scale).into_drawable_axis
          (Placement.X d.top_left.x d.bottom_right.x d.bottom_right.y)).set_color
          axis_color).set_text_style text_color |>.set_tick_size 2 |>.set_thickness axis_thickness
    let y_axis :=
      (((((Axis.new c0.1.y_range).set_title "Y").set_scale d.plot.y_scale).into_drawable_axis
          (Placement.Y d.top_left.y d.bottom_right.y d.top_left.x)).set_color
          axis_color).set_text_style text_color |>.set_tick_size 2 |>.set_thickness axis_thickness
    match x_axis.draw bbox_left with
    | none => none
    | some x_calls =>
      match y_axis.draw bbox_left with
      | none => none
      | some y_calls =>
        some (x_calls ++ y_calls ++
          plot_curve_calls d.plot.curves d.top_left d.bottom_right thickness)

/-- One styling call on a `DrawableSinglePlot` (for quantifying over
arbitrary builder chains). -/
inductive StyleOp where
  | color (c : Nat)
  | text_color (c : Nat)
  | axis_color (c : Nat)
  | thickness (t : Nat)
  | axis_thickness (t : Nat)
deriving DecidableEq, Repr

/-- Apply one styling call. -/
def apply_style (d : DrawableSinglePlot) : StyleOp → DrawableSinglePlot
  | .color c => d.set_color c
  | .text_color c => d.set_text_color c
  | .axis_color c => d.set_axis_color c
  | .thickness t => d.set_thickness t
  | .axis_thickness t => d.set_axis_thickness t

/-- Apply a builder chain of styling calls. -/
def apply_styles (d : DrawableSinglePlot) (ops : List StyleOp) : DrawableSinglePlot :=
  ops.foldl apply_style d

deriving instance DecidableEq for Except

/-- Boolean error test for `Except`. -/
def exceptIsErr {ε α : Type} : Except ε α → Bool
  | .error _ => true
  | .ok _ => false

/-- Is a point inside the closed pixel rectangle spanned by two corners? -/
def in_rect (top_left bottom_right p : Point) : Bool :=
  decide (top_left.x ≤ p.x) && decide (p.x ≤ bottom_right.x) &&
  decide (top_left.y ≤ p.y) && decide (p.y ≤ bottom_right.y)

/-- Do all coordinates of a drawing call lie inside the rectangle? -/
def call_in_rect (top_left bottom_right : Point) : Call → Bool
  | .line p q _ => in_rect top_left bottom_right p && in_rect top_left bottom_right q
  | .text p => in_rect top_left bottom_right p

/-- The end-to-end scenario sample points of the spec: `(0,0),(1,2),(2,2),(3,0)`. -/
def example_points : List PlotPoint := [⟨0, 0⟩, ⟨1, 2⟩, ⟨2, 2⟩, ⟨3, 0⟩]

/-- The scenario curve, with auto-deduced extents. -/
def example_curve : Curve := Curve.from_data example_points

/-- The scenario plot: one curve, `RangeFraction(3)` on X and
`RangeFraction(2)` on Y, rendered into `(50,10)-(430,250)`. -/
def example_drawable : DrawableSinglePlot :=
  (SinglePlot.mk [(example_curve, 1)] (Scale.RangeFraction 3) (Scale.RangeFraction 2)).into_drawable
    ⟨50, 10⟩ ⟨430, 250⟩

/-- A concrete stand-in for the external text bounding-box oracle; the
scenario facts proved below do not depend on its choice. -/
def example_bbox : Point → Int → Int := fun p _ => p.x

/-- A curve with two points and nonempty explicit ranges, used as a concrete
valid curve in witnesses. -/
def witness_good_curve : Curve := Curve.new [⟨0, 0⟩, ⟨1, 1⟩] ⟨0, 1⟩ ⟨0, 1⟩

/-- A curve whose x extent is the empty range `0..0`, so that
`into_drawable_curve` rejects it. -/
def witness_bad_curve : Curve := Curve.new [] ⟨0, 0⟩ ⟨0, 1⟩

/-- A drawable plot whose middle curve is invalid, used as the concrete
witness for the silent-skip behaviour. -/
def witness_plot_drawable : DrawableSinglePlot :=
  (SinglePlot.mk [(witness_good_curve, 0), (witness_bad_curve, 2), (witness_good_curve, 1)]
    (Scale.Fixed 1) (Scale.Fixed 1)).into_drawable ⟨0, 0⟩ ⟨10, 10⟩

/-- Length of the consecutive-pairs list: one less than the point count. -/
theorem tuple_windows_length {α : Type} (l : List α) :
    (tuple_windows l).length = l.length - 1 := by
  simp [tuple_windows, List.length_zip]

/-- Truncating division by a positive integer is monotone in the numerator. -/
theorem tdiv_le_tdiv_of_le {a b c : Int} (hc : 0 < c) (h : a ≤ b) :
    a.tdiv c ≤ b.tdiv c := by
  rcases le_or_lt 0 a with ha | ha
  · rw [Int.tdiv_eq_ediv ha hc.le, Int.tdiv_eq_ediv (le_trans ha h) hc.le]
    exact Int.ediv_le_ediv hc h
  · rcases le_or_lt 0 b with hb | hb
    · have h1 : (0:Int) ≤ (-a).tdiv c := Int.tdiv_nonneg (by omega) hc.le
      have h2 : (0:Int) ≤ b.tdiv c := Int.tdiv_nonneg hb hc.le
      have h3 := Int.neg_tdiv a c
      omega
    · have h1 : (-b).tdiv c ≤ (-a).tdiv c := by
        rw [Int.tdiv_eq_ediv (by omega) hc.le, Int.tdiv_eq_ediv (by omega) hc.le]
        exact Int.ediv_le_ediv hc (by omega)
      have h2 := Int.neg_tdiv a c
      have h3 := Int.neg_tdiv b c
      omega

/-- Folding `min` over a list of copies of `v` starting from `v` gives `v`. -/
theorem foldl_min_const (l : List Int) (v : Int) (h : ∀ a ∈ l, a = v) :
    l.foldl min v = v := by
  induction l with
  | nil => rfl
  | cons a l ih =>
    have ha : a = v := h a (List.mem_cons_self a l)
    simp only [List.foldl_cons, ha, min_self]
    exact ih (fun b hb => h b (List.mem_cons_of_mem a hb))

/-- Folding `max` over a list of copies of `v` starting from `v` gives `v`. -/
theorem foldl_max_const (l : List Int) (v : Int) (h : ∀ a ∈ l, a = v) :
    l.foldl max v = v := by
  induction l with
  | nil => rfl
  | cons a l ih =>
    have ha : a = v := h a (List.mem_cons_self a l)
    simp only [List.foldl_cons, ha, max_self]
    exact ih (fun b hb => h b (List.mem_cons_of_mem a hb))

/-- Tick generation succeeds for every scale except `RangeFraction(0)`. -/
theorem scale_marks_isSome_of_not_panics (s : Scale) (r : IntRange)
    (h : s.panics = false) : ∃ marks, scale_marks s r = some marks := by
  cases s with
  | Fixed interval => exact ⟨_, rfl⟩
  | RangeFraction fraction =>
    cases fraction with
    | zero => simp [Scale.panics] at h
    | succ n =>
      refine ⟨step_by r (max (r.len / (n + 1)) 1), ?_⟩
      simp [scale_marks]

/-- Styling setters change only styling fields: the plot, and the corner
points, survive any builder chain unchanged. -/
theorem apply_styles_plot (d : DrawableSinglePlot) (ops : List StyleOp) :
    (apply_styles d ops).plot = d.plot ∧
    (apply_styles d ops).top_left = d.top_left ∧
    (apply_styles d ops).bottom_right = d.bottom_right := by
  induction ops generalizing d with
  | nil => exact ⟨rfl, rfl, rfl⟩
  | cons op ops ih =>
    have := ih (apply_style d op)
    cases op <;>
      simpa [apply_styles, apply_style, DrawableSinglePlot.set_color,
        DrawableSinglePlot.set_text_color, DrawableSinglePlot.set_axis_color,
        DrawableSinglePlot.set_thickness, DrawableSinglePlot.set_axis_thickness] using this

/-- The curve section of a plot render distributes over list append. -/
theorem plot_curve_calls_append (l₁ l₂ : List (Curve × Nat)) (top_left bottom_right : Point)
    (thickness : Nat) :
    plot_curve_calls (l₁ ++ l₂) top_left bottom_right thickness
      = plot_curve_calls l₁ top_left bottom_right thickness
        ++ plot_curve_calls l₂ top_left bottom_right thickness := by
  simp [plot_curve_calls]

/-- A curve rejected by `into_drawable_curve` contributes no drawing calls. -/
theorem plot_curve_calls_err (bad : Curve × Nat) (top_left bottom_right : Point)
    (thickness : Nat)
    (hbad : exceptIsErr (bad.1.into_drawable_curve top_left bottom_right) = true) :
    plot_curve_calls [bad] top_left bottom_right thickness = [] := by
  cases hbe : bad.1.into_drawable_curve top_left bottom_right with
  | error e => simp [plot_curve_calls, hbe]
  | ok pts => rw [hbe] at hbad; simp [exceptIsErr] at hbad

/-- C1: the Scale Mapper computes
`dest.start + (value - src.start) * (dest.end - dest.start) / (src.end - src.start)`
with truncating toward-zero integer division, for every value, source range
and destination range (reversed destinations included); the point mapping of
`Curve::into_drawable_curve` and the tick positioning of the X branch of
`DrawableAxis::draw` evaluate exactly `scale_between_ranges` at their
respective ranges. -/
theorem C1_scale_mapper_formula (value : Int) (src dest : IntRange)
    (hsrc : src.stop ≠ src.start)
    (c : Curve) (top_left bottom_right : Point) (pts : List Point)
    (hok : c.into_drawable_curve top_left bottom_right = Except.ok pts)
    (a : Axis) (x1 x2 y : Int) (col tsty tsz thk : Option Nat)
    (bbox_left : Point → Int → Int) :
    scale_between_ranges value src dest
        = dest.start
          + Int.tdiv ((value - src.start) * (dest.stop - dest.start)) (src.stop - src.start)
    ∧ pts = c.points.map (fun p =>
        { x := scale_between_ranges p.x c.x_range ⟨top_left.x, bottom_right.x⟩
          y := scale_between_ranges p.y c.y_range ⟨bottom_right.y, top_left.y⟩ })
    ∧ (DrawableAxis.mk a (Placement.X x1 x2 y) col tsty tsz thk).draw bbox_left
        = (scale_marks (a.scale.getD Scale.default) a.range).map (fun marks =>
            [Call.line ⟨x1, y⟩ ⟨x2, y⟩ (thk.getD 1)]
            ++ (match a.title with
                | some _ => [Call.text ⟨x1 + Int.tdiv (x2 - x1) 2, y + 10⟩]
                | none => [])
            ++ marks.flatMap (fun mark =>
                let x := scale_between_ranges mark a.range ⟨x1, x2⟩
                [Call.line ⟨x, y - ((tsz.getD 2 : Nat) : Int)⟩
                    ⟨x, y + ((tsz.getD 2 : Nat) : Int)⟩ (thk.getD 1),
                 Call.text ⟨x + 2, y + 2⟩])) := by
  refine ⟨rfl, ?_, ?_⟩
  · simp only [Curve.into_drawable_curve] at hok
    split at hok
    · cases hok
    · exact ((Except.ok.injEq _ _).mp hok).symm
  · cases h : scale_marks (a.scale.getD Scale.default) a.range with
    | none => simp [DrawableAxis.draw, h]
    | some marks => simp [DrawableAxis.draw, h]

/-- Witness for C1 at value 1, source range 0..2, destination range 0..10,
and a concrete one-point curve mapped into the rectangle (0,0)-(2,2). -/
theorem C1_witness :
    ((⟨0, 2⟩ : IntRange).stop ≠ (⟨0, 2⟩ : IntRange).start)
    ∧ ((Curve.new [⟨0, 0⟩] ⟨0, 1⟩ ⟨0, 1⟩).into_drawable_curve ⟨0, 0⟩ ⟨2, 2⟩
        = Except.ok [⟨0, 2⟩])
    ∧ scale_between_ranges 1 ⟨0, 2⟩ ⟨0, 10⟩ = 0 + Int.tdiv ((1 - 0) * (10 - 0)) (2 - 0) :=
  ⟨by decide, by decide,
    (C1_scale_mapper_formula 1 ⟨0, 2⟩ ⟨0, 10⟩ (by decide)
      (Curve.new [⟨0, 0⟩] ⟨0, 1⟩ ⟨0, 1⟩) ⟨0, 0⟩ ⟨2, 2⟩ [⟨0, 2⟩] (by decide)
      (Axis.new ⟨0, 2⟩) 0 10 0 none none none none example_bbox).1⟩

/-- C2: the claim says a `RangeFraction` divisor of zero is treated as 1 and
drawing never divides by zero; in the code the division `len / fraction`
happens BEFORE the `.max(1)` guard, so `Scale::RangeFraction(0)` is a usize
division by zero (a Rust panic, modelled as `none`), for every range — while
`Scale::Fixed(0)` is indeed floored to step 1 and always succeeds. -/
theorem C2_rangefraction_zero_panics :
    (∀ r : IntRange, scale_marks (Scale.RangeFraction 0) r = none)
    ∧ scale_marks (Scale.RangeFraction 0) ⟨0, 10⟩ = none
    ∧ (∀ (interval : Nat) (r : IntRange), (scale_marks (Scale.Fixed interval) r).isSome = true) :=
  ⟨fun _ => rfl, rfl, fun _ _ => rfl⟩

/-- C3: `Curve::into_drawable_curve` returns an error exactly when the
rectangle is inverted on either axis or either extent range is empty; and a
curve built by `from_data` from identical points always yields that error. -/
theorem C3_curve_error_condition (c : Curve) (top_left bottom_right : Point)
    (p : PlotPoint) (ps : List PlotPoint) (hall : ∀ q ∈ p :: ps, q = p) :
    (exceptIsErr (c.into_drawable_curve top_left bottom_right) = true ↔
      (top_left.x > bottom_right.x ∨ top_left.y > bottom_right.y ∨
        c.x_range.is_empty = true ∨ c.y_range.is_empty = true))
    ∧ exceptIsErr ((Curve.from_data (p :: ps)).into_drawable_curve top_left bottom_right)
        = true := by
  constructor
  · by_cases h : top_left.x > bottom_right.x ∨ top_left.y > bottom_right.y ∨
        c.x_range.is_empty = true ∨ c.y_range.is_empty = true
    · simp [Curve.into_drawable_curve, h, exceptIsErr]
    · simp [Curve.into_drawable_curve, h, exceptIsErr]
  · have hmemx : ∀ a ∈ ps.map (fun q => q.x), a = p.x := by
      intro a ha
      obtain ⟨q, hq, rfl⟩ := List.mem_map.mp ha
      rw [hall q (List.mem_cons_of_mem p hq)]
    have hx : (Curve.from_data (p :: ps)).x_range = ⟨p.x, p.x⟩ := by
      simp only [Curve.from_data, List.map_cons]
      rw [foldl_min_const _ _ hmemx, foldl_max_const _ _ hmemx]
    have hempty : (Curve.from_data (p :: ps)).x_range.is_empty = true := by
      rw [hx]; simp [IntRange.is_empty]
    simp [Curve.into_drawable_curve, hempty, exceptIsErr]

/-- Witness for C3: two identical points at (5,5) inside a valid rectangle
still produce the degenerate-range error. -/
theorem C3_witness :
    (∀ q ∈ [(⟨5, 5⟩ : PlotPoint), ⟨5, 5⟩], q = (⟨5, 5⟩ : PlotPoint))
    ∧ exceptIsErr ((Curve.from_data [⟨5, 5⟩, ⟨5, 5⟩]).into_drawable_curve ⟨0, 0⟩ ⟨10, 10⟩)
        = true :=
  ⟨by decide,
    (C3_curve_error_condition (Curve.new [] ⟨0, 1⟩ ⟨0, 1⟩) ⟨0, 0⟩ ⟨10, 10⟩
      ⟨5, 5⟩ [⟨5, 5⟩] (by decide)).2⟩

/-- C4: vertical inversion — with a vertical placement y1 (top) below y2 in
pixel value and a nondegenerate data range, the range maximum maps exactly to
y1 (hence not to y2), the range minimum to y2; curve rendering maps the
y extent into the reversed destination (bottom_right.y .. top_left.y), the
y-extent maximum lands on top_left.y, and larger data y never gives a larger
pixel y. -/
theorem C4_vertical_axis_inversion (y1 y2 : Int) (r : IntRange)
    (h12 : y1 < y2) (hr : r.start < r.stop)
    (top_left bottom_right : Point) (hy : top_left.y ≤ bottom_right.y)
    (yr : IntRange) (hyr : yr.start < yr.stop) (v w : Int) (hvw : v ≤ w) :
    scale_between_ranges r.stop r ⟨y2, y1⟩ = y1
    ∧ scale_between_ranges r.stop r ⟨y2, y1⟩ ≠ y2
    ∧ scale_between_ranges r.start r ⟨y2, y1⟩ = y2
    ∧ scale_between_ranges yr.stop yr ⟨bottom_right.y, top_left.y⟩ = top_left.y
    ∧ scale_between_ranges w yr ⟨bottom_right.y, top_left.y⟩
        ≤ scale_between_ranges v yr ⟨bottom_right.y, top_left.y⟩ := by
  have h1 : scale_between_ranges r.stop r ⟨y2, y1⟩ = y1 := by
    unfold scale_between_ranges
    dsimp only
    rw [Int.mul_tdiv_cancel_left _ (by omega : r.stop - r.start ≠ 0)]
    omega
  refine ⟨h1, by rw [h1]; omega, ?_, ?_, ?_⟩
  · unfold scale_between_ranges
    simp
  · unfold scale_between_ranges
    dsimp only
    rw [Int.mul_tdiv_cancel_left _ (by omega : yr.stop - yr.start ≠ 0)]
    omega
  · unfold scale_between_ranges
    dsimp only
    have hnum : (w - yr.start) * (top_left.y - bottom_right.y)
        ≤ (v - yr.start) * (top_left.y - bottom_right.y) :=
      mul_le_mul_of_nonpos_right (by omega) (by omega)
    have := tdiv_le_tdiv_of_le (c := yr.stop - yr.start) (by omega) hnum
    omega

/-- Witness for C4 at the vertical placement (10, 250) of the end-to-end
scenario and the data range 0..2. -/
theorem C4_witness :
    ((10 : Int) < 250) ∧ ((0 : Int) < 2) ∧ ((10 : Int) ≤ 250) ∧ ((0 : Int) < 2)
    ∧ ((0 : Int) ≤ 2)
    ∧ (scale_between_ranges 2 ⟨0, 2⟩ ⟨250, 10⟩ = 10
        ∧ scale_between_ranges 2 ⟨0, 2⟩ ⟨250, 10⟩ ≠ 250
        ∧ scale_between_ranges 0 ⟨0, 2⟩ ⟨250, 10⟩ = 250
        ∧ scale_between_ranges 2 ⟨0, 2⟩ ⟨250, 10⟩ = 10
        ∧ scale_between_ranges 2 ⟨0, 2⟩ ⟨250, 10⟩ ≤ scale_between_ranges 0 ⟨0, 2⟩ ⟨250, 10⟩) :=
  ⟨by decide, by decide, by decide, by decide, by decide,
    C4_vertical_axis_inversion 10 250 ⟨0, 2⟩ (by decide) (by decide)
      ⟨50, 10⟩ ⟨430, 250⟩ (by decide) ⟨0, 2⟩ (by decide) 0 2 (by decide)⟩

/-- C5: `SinglePlot::new` returns an error exactly when the curve collection
is empty; every nonempty collection constructs successfully. -/
theorem C5_new_error_iff_empty (curves : List (Curve × Nat)) (x_scale y_scale : Scale) :
    exceptIsErr (SinglePlot.new curves x_scale y_scale) = true ↔ curves = [] := by
  cases curves <;> simp [SinglePlot.new, exceptIsErr]

/-- C6: during `DrawableSinglePlot::draw`, a curve whose `into_drawable_curve`
fails is silently skipped: it contributes no calls, every other curve of the
collection is still rendered, and the plot draw still completes with its axis
calls followed by exactly the curve sections of the remaining curves. -/
theorem C6_failed_curve_silently_skipped (d : DrawableSinglePlot)
    (bbox_left : Point → Int → Int) (pre post : List (Curve × Nat)) (bad : Curve × Nat)
    (hcurves : d.plot.curves = pre ++ bad :: post)
    (hbad : exceptIsErr (bad.1.into_drawable_curve d.top_left d.bottom_right) = true)
    (hx : Scale.panics d.plot.x_scale = false)
    (hy : Scale.panics d.plot.y_scale = false) :
    plot_curve_calls (pre ++ bad :: post) d.top_left d.bottom_right (d.thickness.getD 2)
        = plot_curve_calls pre d.top_left d.bottom_right (d.thickness.getD 2)
          ++ plot_curve_calls post d.top_left d.bottom_right (d.thickness.getD 2)
    ∧ ∃ axis_calls, d.draw bbox_left
        = some (axis_calls
            ++ (plot_curve_calls pre d.top_left d.bottom_right (d.thickness.getD 2)
                ++ plot_curve_calls post d.top_left d.bottom_right (d.thickness.getD 2))) := by
  have part1 : plot_curve_calls (pre ++ bad :: post) d.top_left d.bottom_right
      (d.thickness.getD 2)
      = plot_curve_calls pre d.top_left d.bottom_right (d.thickness.getD 2)
        ++ plot_curve_calls post d.top_left d.bottom_right (d.thickness.getD 2) := by
    have h1 := plot_curve_calls_append pre (bad :: post) d.top_left d.bottom_right
      (d.thickness.getD 2)
    have h2 := plot_curve_calls_append [bad] post d.top_left d.bottom_right
      (d.thickness.getD 2)
    have h3 := plot_curve_calls_err bad d.top_left d.bottom_right (d.thickness.getD 2) hbad
    simp only [List.singleton_append] at h2
    rw [h1, h2, h3, List.nil_append]
  refine ⟨part1, ?_⟩
  obtain ⟨c0, hc0⟩ : ∃ c0, d.plot.curves.head? = some c0 := by
    rw [hcurves]; cases pre <;> exact ⟨_, rfl⟩
  obtain ⟨mx, hmx⟩ := scale_marks_isSome_of_not_panics d.plot.x_scale c0.1.x_range hx
  obtain ⟨my, hmy⟩ := scale_marks_isSome_of_not_panics d.plot.y_scale c0.1.y_range hy
  obtain ⟨xc, hxdraw⟩ : ∃ xc,
      ((((((Axis.new c0.1.x_range).set_title "X").set_scale d.plot.x_scale).into_drawable_axis
          (Placement.X d.top_left.x d.bottom_right.x d.bottom_right.y)).set_color
          (d.axis_color.getD (d.color.getD 0))).set_text_style
          (d.text_color.getD (d.color.getD 0)) |>.set_tick_size 2 |>.set_thickness
          (d.axis_thickness.getD (d.thickness.getD 2))).draw bbox_left = some xc := by
    simp only [Axis.new, Axis.set_title, Axis.set_scale, Axis.into_drawable_axis,
      DrawableAxis.set_color, DrawableAxis.set_text_style, DrawableAxis.set_tick_size,
      DrawableAxis.set_thickness, DrawableAxis.draw, Option.getD_some, hmx]
    exact ⟨_, rfl⟩
  obtain ⟨yc, hydraw⟩ : ∃ yc,
      ((((((Axis.new c0.1.y_range).set_title "Y").set_scale d.plot.y_scale).into_drawable_axis
          (Placement.Y d.top_left.y d.bottom_right.y d.top_left.x)).set_color
          (d.axis_color.getD (d.color.getD 0))).set_text_style
          (d.text_color.getD (d.color.getD 0)) |>.set_tick_size 2 |>.set_thickness
          (d.axis_thickness.getD (d.thickness.getD 2))).draw bbox_left = some yc := by
    simp only [Axis.new, Axis.set_title, Axis.set_scale, Axis.into_drawable_axis,
      DrawableAxis.set_color, DrawableAxis.set_text_style, DrawableAxis.set_tick_size,
      DrawableAxis.set_thickness, DrawableAxis.draw, Option.getD_some, hmy]
    exact ⟨_, rfl⟩
  have hc0h : (pre ++ bad :: post).head? = some c0 := by rw [← hcurves]; exact hc0
  refine ⟨xc ++ yc, ?_⟩
  simp only [DrawableSinglePlot.draw, hcurves, hc0h, hxdraw, hydraw, part1,
    List.append_assoc]

/-- Witness for C6: a three-curve plot whose middle curve has an empty x
extent renders the first and third curves and completes. -/
theorem C6_witness :
    (witness_plot_drawable.plot.curves
        = [(witness_good_curve, 0)] ++ (witness_bad_curve, 2) :: [(witness_good_curve, 1)])
    ∧ (exceptIsErr (witness_bad_curve.into_drawable_curve witness_plot_drawable.top_left
          witness_plot_drawable.bottom_right) = true)
    ∧ (Scale.panics witness_plot_drawable.plot.x_scale = false)
    ∧ (Scale.panics witness_plot_drawable.plot.y_scale = false)
    ∧ (plot_curve_calls [(witness_good_curve, 0), (witness_bad_curve, 2), (witness_good_curve, 1)]
          ⟨0, 0⟩ ⟨10, 10⟩ 2
        = plot_curve_calls [(witness_good_curve, 0)] ⟨0, 0⟩ ⟨10, 10⟩ 2
          ++ plot_curve_calls [(witness_good_curve, 1)] ⟨0, 0⟩ ⟨10, 10⟩ 2
       ∧ ∃ axis_calls, witness_plot_drawable.draw example_bbox
          = some (axis_calls
              ++ (plot_curve_calls [(witness_good_curve, 0)] ⟨0, 0⟩ ⟨10, 10⟩ 2
                  ++ plot_curve_calls [(witness_good_curve, 1)] ⟨0, 0⟩ ⟨10, 10⟩ 2))) :=
  ⟨by decide, by decide, by decide, by decide,
    C6_failed_curve_silently_skipped witness_plot_drawable example_bbox
      [(witness_good_curve, 0)] [(witness_good_curve, 1)] (witness_bad_curve, 2)
      (by decide) (by decide) (by decide) (by decide)⟩

/-- C7 (amended): `DrawableCurve::draw` issues exactly n-1 line calls for a
curve of n mapped sample points (truncated subtraction: none for n = 0). -/
theorem C7_draw_segment_count (d : DrawableCurve) :
    d.draw.length = d.scaled_data.length - 1 := by
  simp [DrawableCurve.draw, tuple_windows_length]

/-- C7 counterexample: the four-point example (0,0),(1,2),(2,2),(3,0) mapped
into (50,10)-(430,250) produces exactly 3 line segments, not the 4 the claim
states. -/
theorem C7_counterexample_four_points_three_segments :
    (Except.map (fun pts => ((DrawableCurve.mk pts none none).draw).length)
        (example_curve.into_drawable_curve ⟨50, 10⟩ ⟨430, 250⟩) = Except.ok 3)
    ∧ (3 : Nat) ≠ 4 ∧ example_points.length = 4 := by decide

/-- C8 counterexample: in the end-to-end scenario the X-axis title text call
is issued at (240, 260), outside the rectangle (50,10)-(430,250). -/
theorem C8_counterexample_title_outside_rect :
    (Call.text ⟨240, 260⟩ ∈ (example_drawable.draw example_bbox).getD [])
    ∧ call_in_rect ⟨50, 10⟩ ⟨430, 250⟩ (Call.text ⟨240, 260⟩) = false
    ∧ (example_drawable.draw example_bbox).isSome = true := by decide

/-- C8 (amended): in the end-to-end scenario every curve line-draw call stays
inside [50,430] x [10,250]; those curve calls are exactly the final section
of the emitted call list, and the render completes. -/
theorem C8_curve_calls_within_rect :
    (plot_curve_calls [(example_curve, 1)] ⟨50, 10⟩ ⟨430, 250⟩ 2).all
        (call_in_rect ⟨50, 10⟩ ⟨430, 250⟩) = true
    ∧ (plot_curve_calls [(example_curve, 1)] ⟨50, 10⟩ ⟨430, 250⟩ 2).isSuffixOf
        ((example_drawable.draw example_bbox).getD []) = true
    ∧ (example_drawable.draw example_bbox).isSome = true := by decide

/-- C9: a plot obtained through `SinglePlot::new` has a nonempty curve list,
`into_drawable` and every chain of styling setters leave the plot component
unchanged, so the `curves[0]` accesses in `draw` are in bounds. -/
theorem C9_first_curve_index_in_bounds (curves : List (Curve × Nat)) (x_scale y_scale : Scale)
    (p : SinglePlot) (hnew : SinglePlot.new curves x_scale y_scale = Except.ok p)
    (top_left bottom_right : Point) (ops : List StyleOp) :
    (apply_styles (p.into_drawable top_left bottom_right) ops).plot = p
    ∧ (apply_styles (p.into_drawable top_left bottom_right) ops).plot.curves.head?.isSome
        = true := by
  have hplot := (apply_styles_plot (p.into_drawable top_left bottom_right) ops).1
  constructor
  · rw [hplot]; exact rfl
  · rw [hplot]
    show p.curves.head?.isSome = true
    simp only [SinglePlot.new] at hnew
    split at hnew
    · exact Except.noConfusion hnew
    · rename_i hlen
      injection hnew with h
      subst h
      cases curves with
      | nil => simp at hlen
      | cons a l => rfl

/-- Witness for C9: a one-curve plot built by `new`, styled with two setter
calls, still has its first curve accessible. -/
theorem C9_witness :
    (SinglePlot.new [(witness_good_curve, 0)] (Scale.Fixed 1) (Scale.Fixed 1)
        = Except.ok (SinglePlot.mk [(witness_good_curve, 0)] (Scale.Fixed 1) (Scale.Fixed 1)))
    ∧ ((apply_styles
          ((SinglePlot.mk [(witness_good_curve, 0)] (Scale.Fixed 1)
              (Scale.Fixed 1)).into_drawable ⟨0, 0⟩ ⟨10, 10⟩)
          [StyleOp.color 5, StyleOp.thickness 3]).plot
        = SinglePlot.mk [(witness_good_curve, 0)] (Scale.Fixed 1) (Scale.Fixed 1)
       ∧ (apply_styles
          ((SinglePlot.mk [(witness_good_curve, 0)] (Scale.Fixed 1)
              (Scale.Fixed 1)).into_drawable ⟨0, 0⟩ ⟨10, 10⟩)
          [StyleOp.color 5, StyleOp.thickness 3]).plot.curves.head?.isSome = true) :=
  ⟨by decide,
    C9_first_curve_index_in_bounds [(witness_good_curve, 0)] (Scale.Fixed 1) (Scale.Fixed 1)
      (SinglePlot.mk [(witness_good_curve, 0)] (Scale.Fixed 1) (Scale.Fixed 1)) (by decide)
      ⟨0, 0⟩ ⟨10, 10⟩ [StyleOp.color 5, StyleOp.thickness 3]⟩

/-- C10: a `DrawableCurve` whose mapped-point sequence has fewer than two
points draws nothing, and a `Curve` with fewer than two sample points and
valid explicit ranges converts successfully to such a drawable. -/
theorem C10_short_curve_draws_nothing (d : DrawableCurve) (hd : d.scaled_data.length < 2)
    (c : Curve) (top_left bottom_right : Point) (pts : List Point)
    (hlen : c.points.length < 2)
    (hok : c.into_drawable_curve top_left bottom_right = Except.ok pts) :
    d.draw = [] ∧ (DrawableCurve.mk pts none none).draw = [] := by
  have key : ∀ (e : DrawableCurve), e.scaled_data.length < 2 → e.draw = [] := by
    intro e he
    have h0 : e.draw.length = 0 := by
      simp [DrawableCurve.draw, tuple_windows_length]
      omega
    exact List.length_eq_zero.mp h0
  have hpts : pts.length < 2 := by
    simp only [Curve.into_drawable_curve] at hok
    split at hok
    · cases hok
    · have := (Except.ok.injEq _ _).mp hok
      rw [← this, List.length_map]
      exact hlen
  exact ⟨key d hd, key _ hpts⟩

/-- Witness for C10: a one-point curve with nonempty explicit ranges maps to
one point and its drawable issues zero calls. -/
theorem C10_witness :
    ((DrawableCurve.mk [⟨0, 2⟩] none none).scaled_data.length < 2)
    ∧ ((Curve.new [⟨0, 0⟩] ⟨0, 1⟩ ⟨0, 1⟩).points.length < 2)
    ∧ ((Curve.new [⟨0, 0⟩] ⟨0, 1⟩ ⟨0, 1⟩).into_drawable_curve ⟨0, 0⟩ ⟨2, 2⟩
        = Except.ok [⟨0, 2⟩])
    ∧ ((DrawableCurve.mk [⟨0, 2⟩] none none).draw = []
        ∧ (DrawableCurve.mk [(⟨0, 2⟩ : Point)] none none).draw = []) :=
  ⟨by decide, by decide, by decide,
    C10_short_curve_draws_nothing (DrawableCurve.mk [⟨0, 2⟩] none none) (by decide)
      (Curve.new [⟨0, 0⟩] ⟨0, 1⟩ ⟨0, 1⟩) ⟨0, 0⟩ ⟨2, 2⟩ [⟨0, 2⟩] (by decide) (by decide)⟩
